import Mathlib

/-!
Verification of the terminal-state extraction engine and session controller of
the `claude-telegram` repository.  Python functions from
`src/claude_telegram/claude.py`, `pty_session.py`, `pty_wrapper.py` and
`bot.py` are shallowly embedded as executable Lean functions over `List Char`
(one `Char` per Python code point, matching Python string indexing/length
semantics).
-/

set_option maxRecDepth 10000

-- ═══════════ Python string primitives over List Char ═══════════

/-- Characters treated as whitespace by Python `str.strip()` (ASCII whitespace
plus NBSP; the only whitespace code points that occur in this code base). -/
def isPyWs (c : Char) : Bool :=
  c = ' ' || c = '\t' || c = '\n' || c = '\r' ||
  c = '\x0b' || c = '\x0c' || c = '\xa0'

/-- Drop chars satisfying `p` from the end of a list. -/
def dropEndWhile (p : Char → Bool) (s : List Char) : List Char :=
  (s.reverse.dropWhile p).reverse

/-- Python `s.strip()`. -/
def pyStrip (s : List Char) : List Char :=
  dropEndWhile isPyWs (s.dropWhile isPyWs)

/-- Python `s.split("\n")` (on the empty string yields `[""]`). -/
def splitNL : List Char → List (List Char)
  | [] => [[]]
  | '\n' :: rest => [] :: splitNL rest
  | c :: rest =>
    match splitNL rest with
    | [] => [[c]]
    | l :: ls => (c :: l) :: ls

/-- Python `"\n".join(lines)`. -/
def joinNL : List (List Char) → List Char
  | [] => []
  | [l] => l
  | l :: ls => l ++ '\n' :: joinNL ls

/-- Python substring test `needle in hay`. -/
def isSubL (needle : List Char) : List Char → Bool
  | [] => needle.isEmpty
  | c :: rest => needle.isPrefixOf (c :: rest) || isSubL needle rest

/-- Python `hay.find(needle)` as an `Option` (Python returns -1 for `none`). -/
def findIdxSubL (needle : List Char) : List Char → Option Nat
  | [] => if needle.isEmpty then some 0 else none
  | c :: rest =>
    if needle.isPrefixOf (c :: rest) then some 0
    else (findIdxSubL needle rest).map (· + 1)

/-- Python `lines[-n:]`. -/
def lastN (n : Nat) (l : List (List Char)) : List (List Char) :=
  l.drop (l.length - n)

/-- Python `s.lower()` (ASCII case fold; project names here are ASCII). -/
def lowerL (s : List Char) : List Char := s.map Char.toLower

-- ═══════════ strip_ansi  (claude.py:47,65-66) ═══════════

-- ANSI_RE = re.compile(r"\x1b\[[0-9;]*[a-zA-Z]|\x1b\].*?\x07|\x1b\(B")

/-- Char class `[0-9;]` of the CSI alternative. -/
def isCsiParam (c : Char) : Bool := c.isDigit || c = ';'

/-- Match length of `\[[0-9;]*[a-zA-Z]` against the text following an ESC:
greedy digits/semicolons then exactly one ASCII letter (backtracking cannot
rescue a failure since the two classes are disjoint). -/
def csiMatchLen (rest : List Char) : Option Nat :=
  match rest with
  | '[' :: r2 =>
    let n := (r2.takeWhile isCsiParam).length
    match r2.drop n with
    | c :: _ => if c.isAlpha then some (2 + n + 1) else none
    | [] => none
  | _ => none

/-- Match length of `\].*?\x07` after an ESC: lazy scan over non-newline chars
up to the first BEL (Python `.` does not match `\n`). -/
def oscMatchLen (rest : List Char) : Option Nat :=
  match rest with
  | ']' :: r2 => (oscScan r2 0).map (fun k => 2 + k + 1)
  | _ => none
where
  oscScan : List Char → Nat → Option Nat
    | [], _ => none
    | c :: cs, k =>
      if c = '\x07' then some k
      else if c = '\n' then none
      else oscScan cs (k + 1)

/-- Length of the regex match of `ANSI_RE` starting at the head of `s`
(alternatives have pairwise-distinct second characters, so Python's
left-to-right alternative order collapses to this case split). -/
def ansiMatchLen (s : List Char) : Option Nat :=
  match s with
  | c :: rest =>
    if c = '\x1b' then
      match csiMatchLen rest with
      | some n => some n
      | none =>
        match oscMatchLen rest with
        | some n => some n
        | none =>
          match rest with
          | '(' :: 'B' :: _ => some 3
          | _ => none
    else none
  | [] => none

/-- One left-to-right substitution pass of `ANSI_RE.sub("", text)`; the fuel
argument (instantiated with the input length, which bounds the number of
steps since every step consumes at least one character) avoids a separate
termination argument. -/
def stripAnsiGo : Nat → List Char → List Char
  | 0, s => s
  | _ + 1, [] => []
  | n + 1, c :: cs =>
    match ansiMatchLen (c :: cs) with
    | some k => stripAnsiGo n ((c :: cs).drop k)
    | none => c :: stripAnsiGo n cs

/-- `strip_ansi` (claude.py:65-66): `ANSI_RE.sub("", text)`. -/
def strip_ansi (s : List Char) : List Char := stripAnsiGo s.length s

-- ═══════════ idle / spinner detection (claude.py:49-147) ═══════════

/-- `_PROCESSING_PREFIXES` (claude.py:49-52). -/
def _PROCESSING_PREFIXES : List (List Char) :=
  ["·".data, "✻".data, "✽".data, "✢".data, "✶".data, "*".data, "●".data,
   "○".data, "◐".data, "◑".data, "◒".data, "◓".data,
   "⠋".data, "⠙".data, "⠹".data, "⠸".data, "⠼".data, "⠴".data, "⠦".data,
   "⠧".data, "⠇".data, "⠏".data]

/-- `_is_processing_line` (claude.py:88-101). -/
def _is_processing_line (stripped : List Char) : Bool :=
  if !(isSubL "…".data stripped) then false
  else if stripped.length > 80 then false
  else if isSubL "ctrl+o".data stripped || isSubL "shift+tab".data stripped ||
          isSubL "esc to".data stripped then false
  else if List.isPrefixOf "⎿".data stripped then false
  else _PROCESSING_PREFIXES.any (fun p => p.isPrefixOf stripped)

/-- `_is_spinner_line` (claude.py:104-129). -/
def _is_spinner_line (stripped : List Char) : Bool :=
  if !(isSubL "…".data stripped) then false
  else if stripped.length > 120 then false
  else if isSubL "ctrl+o".data stripped || isSubL "shift+tab".data stripped ||
          isSubL "esc to".data stripped then false
  else if List.isPrefixOf "⎿".data stripped then false
  else if !(_PROCESSING_PREFIXES.any (fun p => p.isPrefixOf stripped)) then false
  else
    -- paren_idx >= 0 and paren_idx < ellipsis_idx  →  tool call, keep
    match findIdxSubL "(".data stripped, findIdxSubL "…".data stripped with
    | some p, some e => if p < e then false else true
    | none, _ => true
    | some _, none => true

/-- Separator test `stripped and all(c in "─━═" for c in stripped)`. -/
def sepOnlyL (s : List Char) : Bool :=
  !s.isEmpty && s.all (fun c => c = '─' || c = '━' || c = '═')

/-- Loop body of `is_claude_idle` (claude.py:138-147), threading `has_prompt`. -/
def idleScan : List (List Char) → Bool → Bool
  | [], hasPrompt => hasPrompt
  | line :: rest, hasPrompt =>
    let stripped := pyStrip line
    let hp := hasPrompt || stripped = "❯".data ||
              List.isPrefixOf "❯ ".data stripped ||
              List.isPrefixOf "❯\xa0".data stripped
    if sepOnlyL stripped then idleScan rest hp
    else if _is_processing_line stripped then false
    else idleScan rest hp

/-- `is_claude_idle` (claude.py:132-147). -/
def is_claude_idle (pane_content : List Char) : Bool :=
  let cleaned := strip_ansi pane_content
  let lines := splitNL (pyStrip cleaned)
  if lines.isEmpty then false
  else idleScan (lastN 15 lines) false

-- quick sanity examples (concrete evaluation of the embedding)
example : _is_processing_line "● Doing work…".data = true := by decide
example : _is_spinner_line "● Doing work…".data = true := by decide
example : _is_spinner_line "● Bash(echo hi…)".data = false := by decide
example : strip_ansi "\x1b[31mred\x1b[0m".data = "red".data := by decide
example : strip_ansi "\x1b]0;title\x07x".data = "x".data := by decide
example : strip_ansi "a\x1b(Bb".data = "ab".data := by decide

-- ═══════════ extract_response (claude.py:157-247) ═══════════

/-- Strategy 1 inner `while` (claude.py:170-179): skip blank lines and wrapped
continuation lines after the prompt echo; stop at a `●`/`⎿` line or a
non-indented line.  Returns the suffix of lines from the stop position. -/
def skipWrapped : List (List Char) → List (List Char)
  | [] => []
  | l :: rest =>
    let s := pyStrip l
    if s.isEmpty then skipWrapped rest
    else if List.isPrefixOf "●".data s || List.isPrefixOf "⎿".data s ||
            !(List.isPrefixOf " ".data l) then l :: rest
    else skipWrapped rest

/-- Strategy 1 (claude.py:164-181): find a `❯` line echoing the first ~15
chars of the prompt, skip the echo and wrapped continuation lines, take the
rest. -/
def strat1 (after_lines : List (List Char)) (user_short : List Char) : List Char :=
  match after_lines.findIdx? (fun line =>
      let s := pyStrip line
      List.isPrefixOf "❯".data s && !user_short.isEmpty && isSubL user_short s) with
  | none => []
  | some i => joinNL (skipWrapped (after_lines.drop (i + 1)))

/-- Strategy 2 inner `while` (claude.py:210-217): past the `❯` echo, skip
blank/indented lines; stop at a `●`/`⎿` line or a non-blank non-indented
line.  Returns the suffix of lines from the stop position. -/
def skipAfterEcho : List (List Char) → List (List Char)
  | [] => []
  | l :: rest =>
    let ns := pyStrip l
    if !ns.isEmpty && (List.isPrefixOf "●".data ns || List.isPrefixOf "⎿".data ns) then
      l :: rest
    else if !ns.isEmpty && !(List.isPrefixOf " ".data l) then l :: rest
    else skipAfterEcho rest

/-- Index of the last line of `before` whose stripped form starts with `❯`
(claude.py:186-190; `none` models Python's -1). -/
def lastPromptIdx (before_lines : List (List Char)) : Option Nat :=
  match (before_lines.reverse.findIdx? (fun l => List.isPrefixOf "❯".data (pyStrip l))) with
  | none => none
  | some r => some (before_lines.length - 1 - r)

/-- Strategy 2 (claude.py:183-219): anchor on up to 3 non-blank
non-separator lines preceding the last `❯` of `before`, locate that block in
`after`, then skip past the prompt echo. -/
def strat2 (before_lines after_lines : List (List Char)) : List Char :=
  match lastPromptIdx before_lines with
  | none => []
  | some pidx =>
    if pidx = 0 then []   -- `if prompt_idx > 0` guard
    else
      let anchor_lines := ((before_lines.take pidx).drop (pidx - 5)).filter
        (fun l =>
          let s := pyStrip l
          !s.isEmpty && !(s.all (fun c => c = '─' || c = '━' || c = '═')))
      if anchor_lines.isEmpty then []
      else
        let anchor := joinNL (lastN 3 anchor_lines)
        let after_text := joinNL after_lines
        match findIdxSubL anchor after_text with
        | none => []
        | some idx =>
          let remaining := after_text.drop (idx + anchor.length)
          let rem_lines := splitNL remaining
          match rem_lines.findIdx? (fun l => List.isPrefixOf "❯".data (pyStrip l)) with
          | none => joinNL rem_lines          -- `start` stays 0
          | some k => joinNL (skipAfterEcho (rem_lines.drop (k + 1)))

/-- Strategy 3 (claude.py:221-224): keep the `after` lines absent from the
set of non-blank `before` lines. -/
def strat3 (before_lines after_lines : List (List Char)) : List Char :=
  let before_set := before_lines.filter (fun l => !(pyStrip l).isEmpty)
  joinNL (after_lines.filter (fun l => !(before_set.contains l)))

/-- Noise filter of the post-processing loop (claude.py:227-242); `true`
means the line is kept. -/
def keepLine (line : List Char) : Bool :=
  let stripped := pyStrip line
  if sepOnlyL stripped then false
  else if isSubL "shift+tab".data stripped ||
          isSubL "esc to interrupt".data stripped then false
  else if isSubL "ctrl+o to expand".data stripped then false
  else if List.isPrefixOf "Tip:".data stripped ||
          (List.isPrefixOf "⎿".data stripped && isSubL "Tip:".data stripped) then false
  else if stripped = "❯".data || stripped = ">".data then false
  else if _is_spinner_line stripped then false
  else true

/-- One pass of Python `result.replace("\n\n\n", "\n\n")` (non-overlapping,
left to right). -/
def replaceTripleNL : List Char → List Char
  | '\n' :: '\n' :: '\n' :: rest => '\n' :: '\n' :: replaceTripleNL rest
  | c :: rest => c :: replaceTripleNL rest
  | [] => []

/-- The `while "\n\n\n" in result` loop (claude.py:245-246); fuel is the
input length, which bounds the iteration count since every productive pass
shortens the string. -/
def collapseNL : Nat → List Char → List Char
  | 0, s => s
  | n + 1, s =>
    if isSubL "\n\n\n".data s then collapseNL n (replaceTripleNL s) else s

/-- `extract_response` (claude.py:157-247). -/
def extract_response (before after user_msg : List Char) : List Char :=
  let before_clean := pyStrip (strip_ansi before)
  let after_clean := pyStrip (strip_ansi after)
  let before_lines := splitNL before_clean
  let after_lines := splitNL after_clean
  let user_short := pyStrip (user_msg.take 15)
  let nc1 := strat1 after_lines user_short
  let new_content :=
    if !nc1.isEmpty then nc1
    else
      let nc2 := strat2 before_lines after_lines
      if !nc2.isEmpty then nc2
      else strat3 before_lines after_lines
  let cleaned_lines := (splitNL new_content).filter keepLine
  let result := pyStrip (joinNL cleaned_lines)
  collapseNL result.length result

-- sanity examples for the extractor
example :
    extract_response "❯ previous\nresult line".data
      "❯ previous\nresult line\n❯ hello\n● Doing work…\n(done)\n❯ ".data
      "hello".data = "(done)".data := by decide
example :
    extract_response "a\nb".data "a\nb".data "q".data = [] := by decide

-- ═══════════ Session controllers (claude.py:261-336, pty_session.py:25-206) ═══════════

/-- One `onUpdate` invocation: (text argument, `final` flag). -/
abbrev StreamEvent := List Char × Bool

/-- Result of one `execute()` call: the ordered callback invocations and the
returned `result.text`. -/
structure ExecOut where
  events : List StreamEvent
  text : List Char
deriving DecidableEq

/-- Environment of one `TmuxSession.execute` run.  I/O is abstracted into the
values the external world returns: `none` for a capture means the
`subprocess` call raised; `intr i` is the value of `self._interrupted`
observed at the `while` condition of iteration `i` (set concurrently by
`interrupt()`). -/
structure TmuxEnv where
  beforeCap : Option (List Char)
  sendOk : Bool
  caps : Nat → Option (List Char)
  intr : Nat → Bool
  finalCap : Option (List Char)

/-- The streaming part of one poll iteration (claude.py:291-298): extract
the response so far; when non-empty and different from `last_streamed`, call
`stream_cb(response_so_far, False)` and update `last_streamed`.  Returns
(callback invocations so far, new `last_streamed`). -/
def pollStep (before prompt current last : List Char)
    (acc : List StreamEvent) : List StreamEvent × List Char :=
  let r := extract_response before current prompt
  if !r.isEmpty && r ≠ last then (acc ++ [(r, false)], r) else (acc, last)

/-- The polling loop of `TmuxSession.execute` (claude.py:287-302).
`fuel` counts the remaining iterations allowed by `elapsed < TIMEOUT`
(elapsed runs 5,6,…,299 with POLL_INTERVAL 1, so 295 at entry); `i` is the
iteration index, `last` is `last_streamed`, `acc` the callback invocations
so far.  `Except.error ()` models an exception escaping from
`capture_pane`. -/
def pollLoopT (caps : Nat → Option (List Char)) (intr : Nat → Bool)
    (before prompt : List Char) :
    Nat → Nat → List Char → List StreamEvent → Except Unit (List StreamEvent)
  | 0, _, _, acc => .ok acc
  | fuel + 1, i, last, acc =>
    if intr i then .ok acc
    else
      match caps i with
      | none => .error ()
      | some current =>
        if current ≠ before ∧ is_claude_idle current = true then
          .ok (pollStep before prompt current last acc).1
        else
          pollLoopT caps intr before prompt fuel (i + 1)
            (pollStep before prompt current last acc).2
            (pollStep before prompt current last acc).1

/-- Body of `TmuxSession.execute` inside the `try` (claude.py:277-312),
with `stream_cb` present.  The final callback is `stream_cb("", True)`
(claude.py:311-312); `result.text` is the final extraction
(claude.py:308-309). -/
def tmuxExecuteBody (env : TmuxEnv) (prompt : List Char) : Except Unit ExecOut :=
  match env.beforeCap with
  | none => .error ()
  | some before =>
    if !env.sendOk then .error ()
    else
      match pollLoopT env.caps env.intr before prompt 295 0 [] [] with
      | .error _ => .error ()
      | .ok evs =>
        match env.finalCap with
        | none => .error ()
        | some final =>
          .ok { events := evs ++ [([], true)],
                text := extract_response before final prompt }

/-- `TmuxSession.execute` (claude.py:267-320).  The entry never inspects
`self._running` (it is unconditionally set to `True` at claude.py:272, so the
prior value `runningBefore` is irrelevant); the second component is the
`_running` flag after the call, set to `False` by the `finally`
(claude.py:317-318) on the normal path and on the exception path alike. -/
def tmuxExecute (runningBefore : Bool) (env : TmuxEnv) (prompt : List Char) :
    Except Unit ExecOut × Bool :=
  match tmuxExecuteBody env prompt with
  | .ok out => (.ok out, false)      -- return path: finally resets _running
  | .error e => (.error e, false)    -- raise path: finally resets _running

/-- Environment of one `WindowsPtySession.execute` run.  Buffer snapshots are
in-memory reads and `_send_json` swallows `OSError` (pty_session.py:107-116),
so this variant has no raising I/O. -/
structure PtyEnv where
  beforeSnap : List Char
  caps : Nat → List Char
  intr : Nat → Bool
  finalSnap : List Char

/-- The polling loop of `WindowsPtySession.execute` (pty_session.py:142-155);
same shape as the tmux loop but total. -/
def pollLoopP (caps : Nat → List Char) (intr : Nat → Bool)
    (before prompt : List Char) :
    Nat → Nat → List Char → List StreamEvent → List StreamEvent
  | 0, _, _, acc => acc
  | fuel + 1, i, last, acc =>
    if intr i then acc
    else
      if caps i ≠ before ∧ is_claude_idle (caps i) = true then
        (pollStep before prompt (caps i) last acc).1
      else
        pollLoopP caps intr before prompt fuel (i + 1)
          (pollStep before prompt (caps i) last acc).2
          (pollStep before prompt (caps i) last acc).1

/-- `WindowsPtySession.execute` (pty_session.py:122-172): same control flow
as the tmux variant; final callback `stream_cb("", True)` at
pty_session.py:163-164, `finally` resets `_running` at pty_session.py:169-170. -/
def ptyExecute (runningBefore : Bool) (env : PtyEnv) (prompt : List Char) :
    ExecOut × Bool :=
  let before := env.beforeSnap
  let evs := pollLoopP env.caps env.intr before prompt 295 0 [] []
  ({ events := evs ++ [([], true)],
     text := extract_response before env.finalSnap prompt }, false)

/-- Guard chain of `Bot.handle_message` before it calls
`execute_with_retry` (bot.py:430-495): it returns early when the user is not
allowed, no project is configured, or the built prompt is empty — and never
reads `is_running` (the `session_is_running` argument is deliberately unused
because the source never consults it). -/
def handle_message_runs_execute (allowed project_set prompt_nonempty : Bool)
    (session_is_running : Bool) : Bool :=
  allowed && project_set && prompt_nonempty

-- ═══════════ ClaudeManager.get_session (claude.py:597-610) ═══════════

/-- The `SessionInfo` fields relevant to resolution (claude.py:252-256). -/
structure SessionInfoM where
  project : List Char
  work_dir : List Char
deriving DecidableEq

/-- Python `s.rstrip("/")`. -/
def rstripSlash (s : List Char) : List Char := dropEndWhile (· = '/') s

/-- `os.path.basename` on POSIX: the suffix after the last `/`. -/
def basenameL (p : List Char) : List Char :=
  (p.reverse.takeWhile (· ≠ '/')).reverse

/-- `ClaudeManager.get_session` (claude.py:597-610) over the registry
`self._sessions`, modelled as an insertion-ordered association list
(key = project name, value = session info).  Source order: exact name key
lookup, then work-dir equality, then ONE pass testing the two substring
directions together. -/
def get_session (sessions : List (List Char × SessionInfoM))
    (project_dir : List Char) : Option SessionInfoM :=
  let project_name := basenameL (rstripSlash project_dir)
  match sessions.find? (fun kv => kv.1 = project_name) with
  | some kv => some kv.2
  | none =>
    match sessions.find? (fun kv =>
        rstripSlash kv.2.work_dir = rstripSlash project_dir) with
    | some kv => some kv.2
    | none =>
      match sessions.find? (fun kv =>
          isSubL (lowerL project_name) (lowerL kv.1) ||
          isSubL (lowerL kv.1) (lowerL project_name)) with
      | some kv => some kv.2
      | none => none

/-- Modelled from the spec's words for comparison (spec §4.3 `resolve`):
four SEPARATE tiers, the whole registry scanned for tier 3 (hint substring
of name) before tier 4 (name substring of hint) is tried at all. -/
def get_session_spec_order (sessions : List (List Char × SessionInfoM))
    (project_dir : List Char) : Option SessionInfoM :=
  let project_name := basenameL (rstripSlash project_dir)
  match sessions.find? (fun kv => kv.1 = project_name) with
  | some kv => some kv.2
  | none =>
    match sessions.find? (fun kv =>
        rstripSlash kv.2.work_dir = rstripSlash project_dir) with
    | some kv => some kv.2
    | none =>
      match sessions.find? (fun kv =>
          isSubL (lowerL project_name) (lowerL kv.1)) with
      | some kv => some kv.2
      | none =>
        match sessions.find? (fun kv =>
            isSubL (lowerL kv.1) (lowerL project_name)) with
        | some kv => some kv.2
        | none => none

-- ═══════════ ClaudeManager.execute_with_retry (claude.py:644-684) ═══════════

/-- Outcome of one awaited `execute` call. -/
inductive AttemptOutcome
  | ok (text : List Char)
  | raise (msg : List Char)
deriving DecidableEq

/-- Observable behaviour of one `execute_with_retry` call: how many
`execute` attempts were awaited, which backoff sleeps were performed
(seconds), and the propagated outcome. -/
structure RetryTrace where
  attempts : Nat
  delays : List Nat
  result : AttemptOutcome
deriving DecidableEq

/-- `ClaudeManager.execute_with_retry` (claude.py:644-684).  The body
resolves a session (refreshing once if needed, claude.py:656-668 —
collapsed into `sessionFound`) and then awaits `session.execute` EXACTLY
ONCE (claude.py:670-671); an exception from it propagates uncaught.  With no
session it either awaits the SDK fallback once (claude.py:683-684) or raises
the "No tmux session" RuntimeError (claude.py:674-682, message text
abbreviated — its content is immaterial here).  The `max_retries` parameter
(claude.py:651) is never read: there is no retry loop, no transient-substring
whitelist and no backoff sleep anywhere in the function. -/
def execute_with_retry (sessionFound hasSDK : Bool) (max_retries : Nat)
    (sessionAttempt sdkAttempt : AttemptOutcome) : RetryTrace :=
  if sessionFound then
    { attempts := 1, delays := [], result := sessionAttempt }
  else if hasSDK then
    { attempts := 1, delays := [], result := sdkAttempt }
  else
    { attempts := 0, delays := [], result := .raise "No tmux session for project".data }

/-- The spec's transient-error whitelist (spec §4.3 `retryTransient`), used
only to state which errors the claim calls transient. -/
def isTransientErr (msg : List Char) : Bool :=
  isSubL "timeout".data msg || isSubL "connection".data msg ||
  isSubL "rate".data msg || isSubL "429".data msg ||
  isSubL "502".data msg || isSubL "503".data msg

-- ═══════════ Bridge server (pty_wrapper.py) ═══════════

/-- One effect of the inbound-input handler on the pty. -/
inductive PtyEffect
  | write (s : List Char)
  | settle              -- time.sleep(0.1) between body and terminator
deriving DecidableEq

/-- Python `data.rstrip("\r\n")`. -/
def rstripCRLF (s : List Char) : List Char :=
  dropEndWhile (fun c => c = '\r' || c = '\n') s

/-- Inbound `input` handling of `PtyWrapper._client_recv_thread`
(pty_wrapper.py:449-459): the pty writes performed for one `input` message
with payload `data`. -/
def handle_input_data (data : List Char) (pty_alive : Bool) : List PtyEffect :=
  if !data.isEmpty && pty_alive then
    if data.length > 1 &&
        (data.getLast? = some '\r' || data.getLast? = some '\n') then
      [.write (rstripCRLF data), .settle, .write ['\r']]
    else [.write data]
  else []

/-- State evolution of `PtyWrapper._snapshot_thread` (pty_wrapper.py:377-394):
given `_last_snapshot` and the successive rendered screens, the sequence of
`output` payloads broadcast (a snapshot is sent only when it differs from the
previously broadcast one; `_last_snapshot` is initialised to `""` at
pty_wrapper.py:152, and pty_wrapper.py:394 is the only `output` broadcast
site). -/
def snapshotBroadcasts (last : List Char) : List (List Char) → List (List Char)
  | [] => []
  | snap :: rest =>
    if snap ≠ last then snap :: snapshotBroadcasts snap rest
    else snapshotBroadcasts last rest

-- sanity examples for the models
example : handle_input_data "hi\n".data true =
    [.write "hi".data, .settle, .write ['\r']] := by decide
example : handle_input_data "\x03".data true = [.write "\x03".data] := by decide
example : snapshotBroadcasts [] ["a".data, "a".data, "b".data, "b".data] =
    ["a".data, "b".data] := by decide

-- ═══════════ Concrete scenario data ═══════════

/-- Baseline buffer of the end-to-end scenario (spec §8). -/
def before6 : List Char := "❯ previous\nresult line".data

/-- Captured buffer of the end-to-end scenario (spec §8): prompt echo,
spinner line, response, trailing prompt. -/
def after6 : List Char :=
  "❯ previous\nresult line\n❯ hello\n● Doing work…\n(done)\n❯ ".data

/-- A post-completion snapshot: like `after6` but with the spinner gone, so
the idle heuristic accepts it. -/
def doneSnap : List Char :=
  "❯ previous\nresult line\n❯ hello\n(done)\n❯ ".data

/-- A benign execute environment: the first poll already shows the finished
response `doneSnap`, so the loop exits via idle detection on iteration 0. -/
def envIdle : TmuxEnv :=
  { beforeCap := some before6, sendOk := true,
    caps := fun _ => some doneSnap, intr := fun _ => false,
    finalCap := some doneSnap }

/-- A buffer whose busy line sits 16 lines from the end, i.e. just outside
the 15-line window scanned by `is_claude_idle`. -/
def busyPane : List Char :=
  "✻ Thinking…\nl01\nl02\nl03\nl04\nl05\nl06\nl07\nl08\nl09\nl10\nl11\nl12\nl13\nl14\n❯".data

/-- Registry for the spec's resolve scenario. -/
def webS : SessionInfoM := ⟨"web-app".data, "/home/u/web-app".data⟩

def apiS : SessionInfoM := ⟨"api-server".data, "/home/u/api-server".data⟩

def regsWeb : List (List Char × SessionInfoM) :=
  [("web-app".data, webS), ("api-server".data, apiS)]

/-- Registry separating the two substring directions of name matching. -/
def apS : SessionInfoM := ⟨"ap".data, "/home/u/ap".data⟩

def grapeS : SessionInfoM := ⟨"grape-app".data, "/home/u/grape-app".data⟩

def regsGrape : List (List Char × SessionInfoM) :=
  [("ap".data, apS), ("grape-app".data, grapeS)]

-- ═══════════ C1 ═══════════

/-- C1: evaluated at the failing input — an attempt raising an error whose
message contains the whitelisted transient substring "timeout", with the
default `max_retries = 2` — `execute_with_retry` performs exactly 1 attempt,
sleeps no backoff delays, and propagates the error, where the claim (and
spec §4.3/§8) demands 3 attempts with 1s and 2s delays. -/
theorem C1_transient_error_single_attempt :
    isTransientErr "Read timeout".data = true ∧
    execute_with_retry true true 2 (.raise "Read timeout".data) (.ok []) =
      { attempts := 1, delays := [], result := .raise "Read timeout".data } :=
  ⟨by decide, rfl⟩

-- ═══════════ C5 ═══════════

/-- A string on which one substitution pass of `ANSI_RE` creates a fresh
match: removing the inner `ESC[0m` glues `ESC[` to the trailing `0m`. -/
def ansiTricky : List Char := "\x1b[\x1b[0m0m".data

/-- C5 counterexample: at `x = "\x1b[\x1b[0m0m"`, `strip_ansi` is not
idempotent (first pass yields `"\x1b[0m"`, second pass yields `""`) and its
output still contains the escape byte `0x1b`. -/
theorem C5_cex_not_idempotent :
    strip_ansi ansiTricky = "\x1b[0m".data ∧
    strip_ansi (strip_ansi ansiTricky) = [] ∧
    strip_ansi (strip_ansi ansiTricky) ≠ strip_ansi ansiTricky ∧
    '\x1b' ∈ strip_ansi ansiTricky := by decide

/-- `ANSI_RE` matches only at an ESC character. -/
theorem ansiMatchLen_cons_of_ne (c : Char) (cs : List Char) (h : c ≠ '\x1b') :
    ansiMatchLen (c :: cs) = none := by
  simp [ansiMatchLen, h]

/-- A substitution pass leaves an ESC-free string unchanged, for any fuel. -/
theorem stripAnsiGo_id_of_no_esc (s : List Char) (h : ∀ c ∈ s, c ≠ '\x1b') :
    ∀ n, stripAnsiGo n s = s := by
  induction s with
  | nil => intro n; cases n <;> rfl
  | cons c cs ih =>
    intro n
    cases n with
    | zero => rfl
    | succ m =>
      have hc : c ≠ '\x1b' := h c (by simp)
      simp only [stripAnsiGo, ansiMatchLen_cons_of_ne c cs hc]
      exact congrArg (c :: ·) (ih (fun d hd => h d (by simp [hd])) m)

/-- C5 (amended): on strings containing no escape byte, `strip_ansi` is the
identity, and consequently idempotent there; by `C5_cex_not_idempotent` this
does not extend to strings with overlapping escape sequences. -/
theorem C5_identity_on_esc_free (s : List Char) (h : ∀ c ∈ s, c ≠ '\x1b') :
    strip_ansi s = s ∧ strip_ansi (strip_ansi s) = strip_ansi s := by
  have h1 : strip_ansi s = s := stripAnsiGo_id_of_no_esc s h s.length
  exact ⟨h1, by rw [h1, h1]⟩

/-- C5 witness: the theorem applied at the concrete ESC-free string
`"plain text"`. -/
theorem C5_identity_on_esc_free_witness :
    strip_ansi "plain text".data = "plain text".data ∧
    strip_ansi (strip_ansi "plain text".data) = strip_ansi "plain text".data :=
  C5_identity_on_esc_free "plain text".data (by decide)

-- ═══════════ C6 ═══════════

/-- C6 counterexample: on the scenario's final snapshot the idle heuristic
returns `false`, not `true` as claimed — the spinner line `● Doing work…` is
still inside the 15-line window. -/
theorem C6_cex_final_snapshot_not_idle : is_claude_idle after6 = false := by
  decide

/-- C6 (amended): `extract_response` on the scenario buffers returns exactly
`"(done)"` (spinner line and trailing prompt marker filtered out), but
`is_claude_idle` is `false` on that snapshot, because the busy line
`● Doing work…` still lies within the scanned window. -/
theorem C6_scenario :
    extract_response before6 after6 "hello".data = "(done)".data ∧
    _is_processing_line (pyStrip "● Doing work…".data) = true ∧
    is_claude_idle after6 = false := by decide

-- ═══════════ C9 ═══════════

/-- Each broadcast differs from the state it was compared against, and
consecutive broadcasts differ from one another. -/
theorem snapshotBroadcasts_chain (renders : List (List Char)) :
    ∀ last, List.Chain (fun a b => a ≠ b) last (snapshotBroadcasts last renders) := by
  induction renders with
  | nil => intro last; exact List.Chain.nil
  | cons s rest ih =>
    intro last
    by_cases h : s = last
    · simp only [snapshotBroadcasts, h, ne_eq, not_true_eq_false, if_false]
      exact ih last
    · simp only [snapshotBroadcasts, ne_eq, h, not_false_eq_true, if_true]
      exact List.Chain.cons (fun he => h he.symm) (ih s)

/-- C9: the broadcaster is edge-triggered — starting from the initial
`_last_snapshot = ""`, for any sequence of rendered screens no two
consecutive broadcast `output` payloads are equal. -/
theorem C9_no_consecutive_equal_broadcasts (renders : List (List Char)) :
    List.Chain' (fun a b => a ≠ b) (snapshotBroadcasts [] renders) := by
  have h := snapshotBroadcasts_chain renders []
  cases hout : snapshotBroadcasts [] renders with
  | nil => exact List.chain'_nil
  | cons b t =>
    rw [hout] at h
    exact (List.chain_cons.mp h).2

-- ═══════════ C10 ═══════════

/-- C10: after any `execute()` call on either controller — whether the body
returned normally or raised — the `_running` flag is `false`: the `finally`
block resets it unconditionally. -/
theorem C10_running_reset_after_execute :
    (∀ (r : Bool) (env : TmuxEnv) (p : List Char),
        (tmuxExecute r env p).2 = false) ∧
    (∀ (r : Bool) (env : PtyEnv) (p : List Char),
        (ptyExecute r env p).2 = false) := by
  constructor
  · intro r env p
    unfold tmuxExecute
    cases tmuxExecuteBody env p <;> rfl
  · intro r env p
    rfl

-- ═══════════ C4 ═══════════

/-- Containment of a single-character needle implies membership. -/
theorem mem_of_isSubL_singleton (c : Char) (s : List Char)
    (h : isSubL [c] s = true) : c ∈ s := by
  induction s with
  | nil => simp [isSubL] at h
  | cons d rest ih =>
    simp only [isSubL, List.isPrefixOf, Bool.or_eq_true, Bool.and_eq_true] at h
    rcases h with ⟨hc, _⟩ | hrest
    · simp [beq_iff_eq] at hc
      simp [hc]
    · exact List.mem_cons_of_mem d (ih hrest)

/-- A busy line is never a pure separator line: it contains an ellipsis,
which is not a separator character. -/
theorem not_sepOnly_of_processing (s : List Char)
    (h : _is_processing_line s = true) : sepOnlyL s = false := by
  have hsub : isSubL "…".data s = true := by
    by_contra hn
    simp only [Bool.not_eq_true] at hn
    simp [_is_processing_line, hn] at h
  have hmem : '…' ∈ s := mem_of_isSubL_singleton '…' s hsub
  simp only [sepOnlyL, Bool.and_eq_false_iff]
  right
  exact List.all_eq_false.mpr ⟨'…', hmem, by decide⟩

/-- If any scanned line is a busy indicator, the scan returns `false`,
whatever the prompt flag. -/
theorem idleScan_false_of_processing :
    ∀ (ls : List (List Char)) (hp : Bool),
      (∃ l ∈ ls, _is_processing_line (pyStrip l) = true) →
      idleScan ls hp = false := by
  intro ls
  induction ls with
  | nil => intro hp h; simp at h
  | cons l rest ih =>
    intro hp h
    simp only [idleScan]
    by_cases hsep : sepOnlyL (pyStrip l) = true
    · have hl : ¬(_is_processing_line (pyStrip l) = true) := by
        intro hproc
        rw [not_sepOnly_of_processing _ hproc] at hsep
        exact Bool.false_ne_true hsep
      rcases h with ⟨w, hw, hwp⟩
      rcases List.mem_cons.mp hw with rfl | hwrest
      · exact absurd hwp hl
      · simp only [hsep, if_true]
        exact ih _ ⟨w, hwrest, hwp⟩
    · simp only [hsep, if_false]
      by_cases hproc : _is_processing_line (pyStrip l) = true
      · simp [hproc]
      · simp only [hproc, if_false]
        rcases h with ⟨w, hw, hwp⟩
        rcases List.mem_cons.mp hw with rfl | hwrest
        · exact absurd hwp hproc
        · exact ih _ ⟨w, hwrest, hwp⟩

/-- C4 (amended): whenever a busy-indicator line (`_is_processing_line` on
its stripped form) lies within the LAST 15 LINES of the stripped buffer —
the window `is_claude_idle` actually scans — the idle heuristic returns
`false`.  The original claim's "regardless of the rest of the buffer's
content" fails for busy lines that have scrolled out of that window
(`C4_cex_busy_line_outside_window`). -/
theorem C4_busy_line_in_window_not_idle (pane : List Char)
    (h : ∃ l ∈ lastN 15 (splitNL (pyStrip (strip_ansi pane))),
        _is_processing_line (pyStrip l) = true) :
    is_claude_idle pane = false := by
  unfold is_claude_idle
  by_cases he : (splitNL (pyStrip (strip_ansi pane))).isEmpty = true
  · simp [he]
  · simp only [he, Bool.false_eq_true, if_false]
    exact idleScan_false_of_processing _ false h

/-- C4 witness: the theorem applied to the scenario snapshot `after6`, whose
spinner line `● Doing work…` is within the final 15 lines. -/
theorem C4_busy_line_in_window_not_idle_witness :
    is_claude_idle after6 = false :=
  C4_busy_line_in_window_not_idle after6 (by decide)

/-- C4 counterexample: `busyPane` contains a line satisfying every busy
condition of the claim (`✻ Thinking…`), yet `is_claude_idle` returns `true`,
because that line is the 16th line from the end and only the last 15 are
scanned. -/
theorem C4_cex_busy_line_outside_window :
    "✻ Thinking…".data ∈ splitNL (pyStrip (strip_ansi busyPane)) ∧
    _is_processing_line (pyStrip "✻ Thinking…".data) = true ∧
    is_claude_idle busyPane = true := by decide

-- ═══════════ C8 ═══════════

/-- C8: an `input` payload of length > 1 ending in `\r` or `\n` produces two
separate pty writes — the body with trailing terminators stripped, then,
after the settle sleep, the lone terminator `"\r"` — while every other
non-empty payload is written immediately as one unsplit write. -/
theorem C8_input_write_split :
    (∀ data : List Char,
        data.length > 1 →
        data.getLast? = some '\r' ∨ data.getLast? = some '\n' →
        handle_input_data data true =
          [.write (rstripCRLF data), .settle, .write ['\r']]) ∧
    (∀ data : List Char,
        data ≠ [] →
        ¬(data.length > 1 ∧
          (data.getLast? = some '\r' ∨ data.getLast? = some '\n')) →
        handle_input_data data true = [.write data]) := by
  constructor
  · intro data hlen hterm
    have hne : data ≠ [] := by
      intro h; rw [h] at hlen; simp at hlen
    simp [handle_input_data, hne, hlen, hterm]
  · intro data hne hnot
    simp only [handle_input_data, List.isEmpty_eq_true, hne, not_false_eq_true,
      Bool.not_eq_true', Bool.and_eq_true, decide_eq_true_eq]
    rw [if_pos, if_neg]
    · intro hc
      exact hnot ⟨by exact_mod_cast hc.1, by simpa using hc.2⟩
    · simp [hne]

-- ═══════════ C2 ═══════════

/-- A poll iteration only adds partial (`final = false`) callback events. -/
theorem pollStep_events_false (before prompt current last : List Char)
    (acc : List StreamEvent) (hacc : ∀ e ∈ acc, e.2 = false) :
    ∀ e ∈ (pollStep before prompt current last acc).1, e.2 = false := by
  unfold pollStep
  by_cases h : (!(extract_response before current prompt).isEmpty &&
      decide (extract_response before current prompt ≠ last)) = true
  · simp only [h, if_true]
    intro e he
    rcases List.mem_append.mp he with h1 | h2
    · exact hacc e h1
    · simp only [List.mem_singleton] at h2
      rw [h2]
  · simp only [h, if_false]
    exact hacc

/-- All events produced by the tmux poll loop are partial updates. -/
theorem pollLoopT_ok_events_false (caps : Nat → Option (List Char))
    (intr : Nat → Bool) (before prompt : List Char) :
    ∀ (fuel i : Nat) (last : List Char) (acc evs : List StreamEvent),
      (∀ e ∈ acc, e.2 = false) →
      pollLoopT caps intr before prompt fuel i last acc = .ok evs →
      ∀ e ∈ evs, e.2 = false := by
  intro fuel
  induction fuel with
  | zero =>
    intro i last acc evs hacc hrun
    simp only [pollLoopT, Except.ok.injEq] at hrun
    rw [← hrun]
    exact hacc
  | succ m ih =>
    intro i last acc evs hacc hrun
    simp only [pollLoopT] at hrun
    split at hrun
    · simp only [Except.ok.injEq] at hrun
      rw [← hrun]; exact hacc
    · split at hrun
      · exact absurd hrun (by simp)
      · split at hrun
        · simp only [Except.ok.injEq] at hrun
          rw [← hrun]
          exact pollStep_events_false _ _ _ _ _ hacc
        · exact ih _ _ _ _ (pollStep_events_false _ _ _ _ _ hacc) hrun

/-- All events produced by the pty poll loop are partial updates. -/
theorem pollLoopP_events_false (caps : Nat → List Char)
    (intr : Nat → Bool) (before prompt : List Char) :
    ∀ (fuel i : Nat) (last : List Char) (acc : List StreamEvent),
      (∀ e ∈ acc, e.2 = false) →
      ∀ e ∈ pollLoopP caps intr before prompt fuel i last acc, e.2 = false := by
  intro fuel
  induction fuel with
  | zero => intro i last acc hacc; exact hacc
  | succ m ih =>
    intro i last acc hacc
    simp only [pollLoopP]
    split
    · exact hacc
    · split
      · exact pollStep_events_false _ _ _ _ _ hacc
      · exact ih _ _ _ (pollStep_events_false _ _ _ _ _ hacc)

/-- A normally-returning tmux execute produces partial events followed by
exactly the final `("", True)` callback. -/
theorem tmuxExecuteBody_ok_shape (env : TmuxEnv) (p : List Char)
    (out : ExecOut) (h : tmuxExecuteBody env p = .ok out) :
    ∃ evs, out.events = evs ++ [([], true)] ∧ ∀ e ∈ evs, e.2 = false := by
  unfold tmuxExecuteBody at h
  cases hb : env.beforeCap with
  | none => rw [hb] at h; exact absurd h (by simp)
  | some before =>
    rw [hb] at h
    by_cases hs : env.sendOk = true
    · simp only [hs, Bool.not_true, Bool.false_eq_true, if_false] at h
      cases hp : pollLoopT env.caps env.intr before p 295 0 [] [] with
      | error e => rw [hp] at h; exact absurd h (by simp)
      | ok evs =>
        rw [hp] at h
        cases hf : env.finalCap with
        | none => rw [hf] at h; exact absurd h (by simp)
        | some final =>
          rw [hf] at h
          simp only [Except.ok.injEq] at h
          refine ⟨evs, by rw [← h], ?_⟩
          exact pollLoopT_ok_events_false env.caps env.intr before p 295 0 [] []
            evs (by intro e he; exact absurd he (List.not_mem_nil e)) hp
    · simp only [Bool.not_eq_true] at hs
      simp only [hs, Bool.not_false, if_true] at h
      exact absurd h (by simp)

/-- Filter/last facts shared by both controllers. -/
theorem final_event_props (evs : List StreamEvent)
    (hall : ∀ e ∈ evs, e.2 = false) :
    ((evs ++ [(([] : List Char), true)]).filter (fun e => e.2)).length = 1 ∧
    (evs ++ [(([] : List Char), true)]).getLast? = some ([], true) := by
  constructor
  · rw [List.filter_append]
    have h1 : evs.filter (fun e => e.2) = [] := by
      rw [List.filter_eq_nil_iff]
      intro a ha
      rw [hall a ha]
      simp
    rw [h1]
    rfl
  · exact List.getLast?_concat _

/-- C2 (amended): for every execute run on either controller that completes
without an exception, the callback is invoked exactly once with
`final = true`, and that invocation is the last one — but its text argument
is the EMPTY string (`stream_cb("", True)`), not the final extracted text,
which is returned in `result.text` instead. -/
theorem C2_final_callback_once_with_empty_text :
    (∀ (r : Bool) (env : TmuxEnv) (p : List Char) (out : ExecOut),
        (tmuxExecute r env p).1 = Except.ok out →
        ((out.events.filter (fun e => e.2)).length = 1 ∧
         out.events.getLast? = some ([], true))) ∧
    (∀ (r : Bool) (env : PtyEnv) (p : List Char),
        (((ptyExecute r env p).1.events).filter (fun e => e.2)).length = 1 ∧
        ((ptyExecute r env p).1.events).getLast? = some ([], true)) := by
  constructor
  · intro r env p out h
    unfold tmuxExecute at h
    cases hb : tmuxExecuteBody env p with
    | error e => rw [hb] at h; exact absurd h (by simp)
    | ok out' =>
      rw [hb] at h
      simp only [Except.ok.injEq] at h
      rw [← h]
      obtain ⟨evs, hev, hall⟩ := tmuxExecuteBody_ok_shape env p out' hb
      rw [hev]
      exact final_event_props evs hall
  · intro r env p
    exact final_event_props _
      (pollLoopP_events_false env.caps env.intr env.beforeSnap p 295 0 [] []
        (by intro e he; exact absurd he (List.not_mem_nil e)))

/-- C2 witness: the theorem applied to the benign concrete environment
`envIdle` with prompt `"hello"`. -/
theorem C2_final_callback_once_with_empty_text_witness :
    ((({ events := [("(done)".data, false), ([], true)],
         text := "(done)".data } : ExecOut).events.filter
        (fun e => e.2)).length = 1 ∧
     ({ events := [("(done)".data, false), ([], true)],
        text := "(done)".data } : ExecOut).events.getLast? = some ([], true)) :=
  C2_final_callback_once_with_empty_text.1 false envIdle "hello".data
    { events := [("(done)".data, false), ([], true)], text := "(done)".data }
    rfl

/-- C2 counterexample: in the same concrete run the final extracted text is
`"(done)"` (and is returned in `result.text`), yet the `final = true`
callback invocation carries the empty string — the callback does NOT receive
the final extracted text as the claim states. -/
theorem C2_cex_final_callback_text_empty :
    (tmuxExecute false envIdle "hello".data).1 =
      Except.ok { events := [("(done)".data, false), ([], true)],
                  text := "(done)".data } ∧
    "(done)".data ≠ ([] : List Char) :=
  ⟨rfl, by decide⟩

-- ═══════════ C3 ═══════════

/-- C3 counterexample: with a run already in progress (`_running = true`),
the message handler still proceeds (it never consults `is_running`) and
`execute()` invoked on the running controller completes normally — the
second invocation is RUN, not rejected. -/
theorem C3_cex_second_invocation_runs :
    handle_message_runs_execute true true true true = true ∧
    (tmuxExecute true envIdle "hello".data).1 =
      Except.ok { events := [("(done)".data, false), ([], true)],
                  text := "(done)".data } :=
  ⟨rfl, rfl⟩

/-- C3 (amended): nothing rejects an overlapping `execute()`.  The behaviour
of `execute()` on either controller is entirely independent of the prior
`_running` flag (the entry unconditionally overwrites it and proceeds), and
`Bot.handle_message`'s decision to call `execute_with_retry` is independent
of whether the session is running. -/
theorem C3_no_overlap_rejection :
    (∀ (r r' : Bool) (env : TmuxEnv) (p : List Char),
        tmuxExecute r env p = tmuxExecute r' env p) ∧
    (∀ (r r' : Bool) (env : PtyEnv) (p : List Char),
        ptyExecute r env p = ptyExecute r' env p) ∧
    (∀ (allowed project_set prompt_nonempty run run' : Bool),
        handle_message_runs_execute allowed project_set prompt_nonempty run =
        handle_message_runs_execute allowed project_set prompt_nonempty run') :=
  ⟨fun _ _ _ _ => rfl, fun _ _ _ _ => rfl, fun _ _ _ _ _ => rfl⟩

-- ═══════════ C7 ═══════════

/-- C7 counterexample: with registry `["ap", "grape-app"]` (insertion order)
and hint directory `/w/grape`, the code's single combined substring pass
returns the `"ap"` session (because `"ap" ⊆ "grape"` fires on the first
entry), while the claim's tier order — all hint-in-name matches before any
name-in-hint match — would return `"grape-app"`. -/
theorem C7_cex_substring_tier_order :
    get_session regsGrape "/w/grape".data = some apS ∧
    get_session_spec_order regsGrape "/w/grape".data = some grapeS ∧
    apS ≠ grapeS := by decide

/-- C7 (amended): resolution tries (1) exact project-name key, (2) exact
working-directory equality, then a SINGLE pass over the registry in
insertion order returning the first entry for which the hint is a
case-insensitive substring of the name OR the name a substring of the hint;
and the spec's concrete scenario holds: `resolve("web")` finds `web-app`,
`resolve("nonexistent")` finds nothing. -/
theorem C7_resolution_order :
    (∀ (sessions : List (List Char × SessionInfoM)) (project_dir : List Char)
        (kv : List Char × SessionInfoM),
        (∀ e ∈ sessions, e.1 ≠ basenameL (rstripSlash project_dir)) →
        (∀ e ∈ sessions, rstripSlash e.2.work_dir ≠ rstripSlash project_dir) →
        sessions.find? (fun e =>
          isSubL (lowerL (basenameL (rstripSlash project_dir))) (lowerL e.1) ||
          isSubL (lowerL e.1) (lowerL (basenameL (rstripSlash project_dir)))) =
          some kv →
        get_session sessions project_dir = some kv.2) ∧
    get_session regsWeb "/home/u/web".data = some webS ∧
    get_session regsWeb "/home/u/nonexistent".data = none := by
  refine ⟨?_, by decide, by decide⟩
  intro sessions project_dir kv h1 h2 h3
  have e1 : sessions.find?
      (fun e => decide (e.1 = basenameL (rstripSlash project_dir))) = none := by
    rw [List.find?_eq_none]
    intro x hx
    simp [h1 x hx]
  have e2 : sessions.find?
      (fun e => decide (rstripSlash e.2.work_dir = rstripSlash project_dir)) = none := by
    rw [List.find?_eq_none]
    intro x hx
    simp [h2 x hx]
  simp only [get_session]
  rw [e1, e2, h3]

/-- C7 witness: the general part of the theorem applied to the concrete
`regsGrape` registry, where both exact tiers fail and the first combined
substring match is the `"ap"` entry. -/
theorem C7_resolution_order_witness :
    get_session regsGrape "/w/grape".data = some apS :=
  C7_resolution_order.1 regsGrape "/w/grape".data ("ap".data, apS)
    (by decide) (by decide) (by decide)

/-- C8 witness: the theorem applied to the concrete payloads `"hi\n"`
(split into body, settle delay, `"\r"`) and the raw control byte `"\x03"`
(one unsplit write). -/
theorem C8_input_write_split_witness :
    handle_input_data "hi\n".data true =
      [.write (rstripCRLF "hi\n".data), .settle, .write ['\r']] ∧
    handle_input_data "\x03".data true = [.write "\x03".data] :=
  ⟨C8_input_write_split.1 "hi\n".data (by decide) (by decide),
   C8_input_write_split.2 "\x03".data (by decide) (by decide)⟩
